import Mathlib

/-!
Shallow embedding of the d3-ez charting components
(`src/component/candleSticks.js`, `src/component/circularLabels.js`, and the
line chart in `src/unnamed/part_000`) over exact rational arithmetic.

Numbers are modelled as `ℚ`, millisecond dates as `ℤ`, and JS `undefined`/`NaN`
as `Option` values.  d3 host-library primitives used by the code
(`d3.min`/`d3.max`/`d3.extent`, ordinal scales, linear/time scales, the
`nice()` domain extension with its `tickStep` helper) are modelled after the
d3 v4 sources.
-/

/-! ## JS / d3 numeric primitives -/

/-- JS `Math.floor` on rationals, returned as a rational. -/
def jsFloor (q : ℚ) : ℚ := (⌊q⌋ : ℤ)

/-- JS `Math.ceil` on rationals, returned as a rational. -/
def jsCeil (q : ℚ) : ℚ := (⌈q⌉ : ℤ)

/-- Ten to an integer power, as a rational. -/
def pow10 (z : ℤ) : ℚ :=
  if 0 ≤ z then ((10 : ℚ) ^ z.toNat) else 1 / ((10 : ℚ) ^ (-z).toNat)

/-- Fuel-driven loop computing `⌊log10 q⌋` for a positive rational:
divides by 10 while `q ≥ 10`, multiplies by 10 while `q < 1`.
Fuel 700 covers every finite double magnitude. -/
def log10floorAux : Nat → ℚ → ℤ → ℤ
  | 0, _, acc => acc
  | fuel + 1, q, acc =>
    if 10 ≤ q then log10floorAux fuel (q / 10) (acc + 1)
    else if q < 1 then log10floorAux fuel (q * 10) (acc - 1)
    else acc

/-- Floor of the base-10 logarithm of a positive rational. -/
def log10floor (q : ℚ) : ℤ := log10floorAux 700 q 0

/-- Whether `error ≥ sqrt n` holds for a non-negative rational `error`, decided
by squaring.  d3 compares the tick error against `sqrt 50`, `sqrt 10`, `sqrt 2`. -/
def geSqrt (error : ℚ) (n : ℚ) : Bool := n ≤ error * error

/-- The 1/2/5/10 multiplier chosen by d3's `tickStep` from the tick error. -/
def tickFactor (error : ℚ) : ℚ :=
  if geSqrt error 50 then 10
  else if geSqrt error 10 then 5
  else if geSqrt error 2 then 2
  else 1

/-- d3 v4 `tickStep(start, stop, count)`: the tick spacing rounded to a
power of ten times 1, 2, 5 or 10.  When the raw step is zero (degenerate
interval) the JS code falls through all branches and returns 0. -/
def tickStep (start stop : ℚ) (count : ℕ) : ℚ :=
  let step0 := |stop - start| / (count : ℚ)
  if step0 = 0 then 0
  else
    let step1 := pow10 (log10floor step0)
    let step2 := step1 * tickFactor (step0 / step1)
    if stop < start then -step2 else step2

/-- d3 v4 linear-scale `nice()` (default tick count 10): extend the domain
endpoints outward to multiples of a recomputed tick step.  A zero step
(degenerate domain) leaves the domain unchanged. -/
def d3nice (start stop : ℚ) : ℚ × ℚ :=
  let step := tickStep start stop 10
  if step = 0 then (start, stop)
  else
    let step2 := tickStep (jsFloor (start / step) * step) (jsCeil (stop / step) * step) 10
    (jsFloor (start / step2) * step2, jsCeil (stop / step2) * step2)

/-- d3.min over a rational list: `undefined` (`none`) when empty. -/
def d3minQ : List ℚ → Option ℚ
  | [] => none
  | x :: xs => some ((d3minQ xs).elim x (min x))

/-- d3.max over a rational list: `undefined` (`none`) when empty. -/
def d3maxQ : List ℚ → Option ℚ
  | [] => none
  | x :: xs => some ((d3maxQ xs).elim x (max x))

/-- d3.min over millisecond dates. -/
def d3minZ : List ℤ → Option ℤ
  | [] => none
  | x :: xs => some ((d3minZ xs).elim x (min x))

/-- d3.max over millisecond dates. -/
def d3maxZ : List ℤ → Option ℤ
  | [] => none
  | x :: xs => some ((d3maxZ xs).elim x (max x))

/-- d3.extent over a rational list: the `[min, max]` pair,
`[undefined, undefined]` when empty. -/
def d3extentQ (xs : List ℚ) : Option ℚ × Option ℚ := (d3minQ xs, d3maxQ xs)

/-! ## d3 ordinal scale

`d3.scaleOrdinal().domain(dom).range(rng)` maps a key to
`rng[index(key) % rng.length]`; a key not yet in the domain is appended to it
(implicit-domain growth), which is the only way applying the scale mutates it. -/

/-- An ordinal scale over keys of type `κ`. -/
structure OrdinalScale (κ : Type) where
  domain : List κ
  range : List String
deriving Repr, DecidableEq

/-- Position of a key in an ordinal-scale domain, if present. -/
def domainIndex {κ : Type} [DecidableEq κ] : List κ → κ → Option ℕ
  | [], _ => none
  | x :: xs, k => if x = k then some 0 else (domainIndex xs k).map (· + 1)

/-- Apply an ordinal scale to a key, returning the colour and the
(possibly grown) scale. -/
def ordinalApply {κ : Type} [DecidableEq κ] (s : OrdinalScale κ) (k : κ) :
    String × OrdinalScale κ :=
  match domainIndex s.domain k with
  | some i => (s.range.getD (i % s.range.length) "", s)
  | none =>
    (s.range.getD (s.domain.length % s.range.length) "",
     { s with domain := s.domain ++ [k] })

/-! ## candleSticks component (`src/component/candleSticks.js`) -/

/-- One candle datum: a date (ms) and the open/high/low/close prices. -/
structure Candle where
  date : ℤ
  «open» : ℚ
  high : ℚ
  low : ℚ
  close : ℚ
deriving Repr, DecidableEq

/-- A bound series `{ key, values }` as passed to the candleSticks render. -/
structure CandleSeries where
  key : String
  values : List Candle
deriving Repr, DecidableEq

/-- The up-day predicate `isUpDay(d)`: `d.close > d.open`
(candleSticks.js lines 76–78). -/
def isUpDay (d : Candle) : Bool := d.close > d.«open»

/-- A d3 time scale as configured by candleSticks: millisecond-date domain
(`none` = Invalid Date / NaN endpoint) and pixel range. -/
structure TimeScale where
  domain : Option ℤ × Option ℤ
  range : ℚ × ℚ
deriving Repr, DecidableEq

/-- A d3 linear scale: rational domain (`none` = NaN endpoint) and range. -/
structure LinScale where
  domain : Option ℚ × Option ℚ
  range : ℚ × ℚ
deriving Repr, DecidableEq

/-- A d3 dispatch object, identified by its list of event type names.
It is a plain object, not callable as a function. -/
structure Dispatch where
  types : List String
deriving Repr, DecidableEq

/-- The transition configuration `{ ease, duration }`. -/
structure TransitionSpec where
  ease : String
  duration : ℚ
deriving Repr, DecidableEq

/-- Closure state of one candleSticks component instance
(candleSticks.js lines 13–22).  `none` models a JS `undefined` binding. -/
structure CSState where
  width : ℚ
  height : ℚ
  transition : TransitionSpec
  colors : List String
  dispatch : Dispatch
  xScale : Option TimeScale
  yScale : Option LinScale
  colorScale : Option (OrdinalScale Bool)
  candleWidth : ℚ
deriving Repr, DecidableEq

/-- The default colour scale built at construction (candleSticks.js line 20):
`d3.scaleOrdinal().range(colors).domain([true, false])` with
`colors = ["green", "red"]`. -/
def defaultCandleColorScale : OrdinalScale Bool :=
  { domain := [true, false], range := ["green", "red"] }

/-- The component state right after construction (candleSticks.js lines 13–22). -/
def csInitialState : CSState where
  width := 400
  height := 400
  transition := { ease := "easeBounce", duration := 500 }
  colors := ["green", "red"]
  dispatch := { types := ["customValueMouseOver", "customValueMouseOut",
    "customValueClick", "customSeriesMouseOver", "customSeriesMouseOut",
    "customSeriesClick"] }
  xScale := none
  yScale := none
  colorScale := some defaultCandleColorScale
  candleWidth := 3

/-- Apply `nice()` to a computed `[min, max]` domain; an undefined endpoint
(NaN after coercion) makes `tickStep` falsy, leaving the domain unchanged. -/
def niceOpt : Option ℚ × Option ℚ → Option ℚ × Option ℚ
  | (some a, some b) => ((d3nice a b).1, (d3nice a b).2)
  | d => d

/-- The `init(data)` function of candleSticks (lines 30–62): computes the date and price
extents, then fills in `colorScale`, `xScale`, `yScale` only where they are
still `undefined`.  `8.64e7` ms is one day. -/
def csInit (s : CSState) (data : CandleSeries) : CSState :=
  let minDate := d3minZ (data.values.map (·.date))
  let maxDate := d3maxZ (data.values.map (·.date))
  let xDomain := (minDate.map (· - 86400000), maxDate.map (· + 86400000))
  let yDomain := (d3minQ (data.values.map (·.low)), d3maxQ (data.values.map (·.high)))
  { s with
    colorScale := match s.colorScale with
      | none => some { domain := [true, false], range := s.colors }
      | some c => some c
    xScale := match s.xScale with
      | none => some { domain := xDomain, range := (0, s.width) }
      | some sc => some sc
    yScale := match s.yScale with
      | none => some { domain := niceOpt yDomain, range := (s.height, 0) }
      | some sc => some sc }

/-- The fill/stroke colour of one candle group (candleSticks.js lines 167–168):
`colorScale(isUpDay(d))`, together with the scale state after the call. -/
def candleColor (cs : OrdinalScale Bool) (d : Candle) : String × OrdinalScale Bool :=
  ordinalApply cs (isUpDay d)

/-! ## Scale application (d3 continuous scales)

A d3 continuous scale with a two-point numeric domain interpolates linearly;
a degenerate domain makes the deinterpolator the constant `1/2`
(d3-scale `normalize`), and a NaN endpoint yields NaN (`none`). -/

/-- Linear interpolation `r0 + (x - d0) / (d1 - d0) * (r1 - r0)`, with d3's
constant-`1/2` fallback for a degenerate domain. -/
def linInterp (d0 d1 r0 r1 x : ℚ) : ℚ :=
  if d1 - d0 = 0 then r0 + 1 / 2 * (r1 - r0)
  else r0 + (x - d0) / (d1 - d0) * (r1 - r0)

/-- Apply a candleSticks time scale to a millisecond date. -/
def timeScaleApply (sc : TimeScale) (x : ℤ) : Option ℚ :=
  match sc.domain with
  | (some a, some b) => some (linInterp (a : ℚ) (b : ℚ) sc.range.1 sc.range.2 (x : ℚ))
  | _ => none

/-- Apply a candleSticks linear scale to a rational value. -/
def linScaleApply (sc : LinScale) (x : ℚ) : Option ℚ :=
  match sc.domain with
  | (some a, some b) => some (linInterp a b sc.range.1 sc.range.2 x)
  | _ => none

/-! ## Candle geometry (candleSticks.js lines 102–121) -/

/-- An SVG rect's geometry attributes. -/
structure Rect where
  x : ℚ
  y : ℚ
  width : ℚ
  height : ℚ
deriving Repr, DecidableEq

/-- The `.open-close-bar` rect of one candle, for arbitrary (already
configured) scale functions `xS`/`yS`:
`x = xScale(d.date) - candleWidth`, `width = candleWidth * 2`, and `y`/`height`
chosen by the `isUpDay` branch (candleSticks.js lines 109–120). -/
def openCloseBarRect (xS : ℤ → ℚ) (yS : ℚ → ℚ) (candleWidth : ℚ) (d : Candle) : Rect where
  x := xS d.date - candleWidth
  y := if isUpDay d then yS d.close else yS d.«open»
  width := candleWidth * 2
  height := if isUpDay d then yS d.«open» - yS d.close else yS d.close - yS d.«open»

/-- The `.high-low-line` path endpoints of one candle
(candleSticks.js lines 93–98). -/
def highLowLinePoints (xS : ℤ → ℚ) (yS : ℚ → ℚ) (d : Candle) : List (ℚ × ℚ) :=
  [(xS d.date, yS d.high), (xS d.date, yS d.low)]

/-! ## circularLabels component (`src/component/circularLabels.js`) -/

/-- The displayed text of one circular label: a numeric tick (from a linear
scale's `ticks()`) or a band-scale category string. -/
inductive LabelText where
  | num (q : ℚ)
  | str (s : String)
deriving Repr, DecidableEq

/-- The radial scale handed to circularLabels, as the component observes it:
either a linear scale (`ticks` is a function; its tick list is carried as
data) or a band scale (only `domain()` is used). -/
inductive RadialScale where
  | linear (dom : ℚ × ℚ) (rng : ℚ × ℚ) (ticks : List ℚ)
  | band (dom : List String) (rng : ℚ × ℚ)
deriving Repr, DecidableEq

/-- The range accessor `radialScale.range()`. -/
def RadialScale.range : RadialScale → ℚ × ℚ
  | .linear _ rng _ => rng
  | .band _ rng => rng

/-- The tick list circularLabels bases its labels on
(circularLabels.js lines 43–78): `ticks()` for a linear scale, `domain()`
for a band scale. -/
def circularTickData : RadialScale → List LabelText
  | .linear _ _ ticks => ticks.map .num
  | .band dom _ => dom.map .str

/-- JS `(q).toFixed(0)`: round to the nearest integer, ties away from zero
for positive reals (the spec's "larger n"), i.e. `⌊q + 1/2⌋`. -/
def jsToFixed0 (q : ℚ) : ℚ := jsFloor (q + 1 / 2)

/-- The dead `newtick` computation of circularLabels (lines 50–68): the
domain extent is split evenly and each split point rounded with
`toFixed(0)`.  Its result is logged and discarded (`tickData = newtick`
stays commented out), so it never reaches the rendered labels. -/
def circularNewtick (rs : RadialScale) : List ℚ :=
  match rs with
  | .linear dom _ ticks =>
    let mn := min dom.1 dom.2
    let mx := max dom.1 dom.2
    let range := mx - mn
    let split := ticks.length
    let each := range / (split : ℚ)
    (List.range split).map (fun i => jsToFixed0 (each * (i : ℚ)))
  | .band _ _ => []

/-- The label data joined to the `text` elements (circularLabels.js lines
80–92): the `i`-th tick paired with offset `(textScale(i) / 360) * 100`,
where `textScale` is linear with domain `[0, tickData.length]` and range
`radialScale.range()`. -/
def circularLabelData (rs : RadialScale) : List (LabelText × ℚ) :=
  let tickData := circularTickData rs
  let n := tickData.length
  let r := rs.range
  tickData.enum.map (fun p =>
    (p.2, linInterp 0 (n : ℚ) r.1 r.2 (p.1 : ℚ) / 360 * 100))

/-! ## Line chart (`src/unnamed/part_000`) -/

/-- One line-chart point `{ key, value }`; `key` starts as an epoch-seconds
number and is turned into a `Date` (its millisecond value) in place. -/
structure LCPoint where
  key : ℚ
  value : ℚ
deriving Repr, DecidableEq

/-- One line-chart series `{ key, values }`. -/
structure LCSeries where
  key : String
  values : List LCPoint
deriving Repr, DecidableEq

/-- The margin object `{ top, right, bottom, left }`. -/
structure Margin where
  top : ℚ
  right : ℚ
  bottom : ℚ
  left : ℚ
deriving Repr, DecidableEq

/-- Closure state of one line-chart instance (part_000 lines 15–43).
Scales, axes and chart dimensions start out `undefined` (`none`). -/
structure LCState where
  width : ℚ
  height : ℚ
  margin : Margin
  transition : TransitionSpec
  colors : List String
  dispatch : Dispatch
  chartW : Option ℚ
  chartH : Option ℚ
  xScale : Option LinScale
  yScale : Option LinScale
  colorScale : Option (OrdinalScale String)
  yAxisLabel : Option String
deriving Repr, DecidableEq

/-- Modelled from the spec: the `dataParse` helper (not under `src/`)
"reshapes input arrays into grouped series with computed aggregates
(max/min/total)"; `groupNames` is the list of series keys. -/
def lcGroupNames (data : List LCSeries) : List String := data.map (·.key)

/-- Modelled from the spec: the `dataParse` helper's `maxValue` aggregate,
the maximum numeric value over all series' values
("numeric maxima … recomputed … from the raw input"). -/
def lcMaxValue (data : List LCSeries) : Option ℚ :=
  d3maxQ ((data.map (fun s => s.values.map (·.value))).flatten)

/-- The in-place date conversion of the line chart's `init`
(part_000 lines 58–62): `data[i].values[j].key = new Date(b.key * 1000)`.
Numerically the stored key is multiplied by 1000 — also when it already is
a `Date`, whose millisecond value gets multiplied again. -/
def lcConvertDates (data : List LCSeries) : List LCSeries :=
  data.map (fun s => { s with values := s.values.map (fun p => { p with key := p.key * 1000 }) })

/-- Host/validation error distinction for the render entry points. -/
inductive LibError where
  | host (msg : String)
  | validation (msg : String)
deriving Repr, DecidableEq

/-- The `init(data)` function of the line chart (part_000 lines 48–87):
chart dimensions, `dataParse` aggregates, the in-place date conversion,
colour scale (only when still unset), and the unconditional x/y scales.
Returns the (mutated) data together with the new state; accessing
`data[0].values` on empty data raises a host `TypeError`. -/
def lcInit (s : LCState) (data : List LCSeries) :
    Except LibError (List LCSeries × LCState) :=
  let chartW := s.width - s.margin.left - s.margin.right
  let chartH := s.height - s.margin.top - s.margin.bottom
  let maxValue := lcMaxValue data
  let groupNames := lcGroupNames data
  let data2 := lcConvertDates data
  match data2 with
  | [] => .error (.host "TypeError: Cannot read property 'values' of undefined")
  | s0 :: _ =>
    let dateDomain := d3extentQ (s0.values.map (·.key))
    .ok (data2,
      { s with
        chartW := some chartW
        chartH := some chartH
        colorScale := match s.colorScale with
          | none => some { domain := groupNames, range := s.colors }
          | some c => some c
        xScale := some { domain := dateDomain, range := (0, chartW) }
        yScale := some { domain := (some 0, maxValue.map (· * (21 / 20))), range := (chartH, 0) } })

/-! ## circularLabels component state -/

/-- Closure state of one circularLabels instance
(circularLabels.js lines 7–12). -/
structure CLState where
  width : ℚ
  height : ℚ
  radialScale : Option RadialScale
  radius : Option ℚ
  capitalizeLabels : Bool
  textAnchor : String
deriving Repr, DecidableEq

/-- The circularLabels state right after construction. -/
def clInitialState : CLState where
  width := 400
  height := 300
  radialScale := none
  radius := none
  capitalizeLabels := false
  textAnchor := "start"

/-- Final displayed text of a circular label: `capitalizeLabels` applies
`toUpperCase`, which is a host `TypeError` on a numeric tick. -/
def clFinalText (cap : Bool) : LabelText → Except LibError LabelText
  | .str u => .ok (.str (if cap then u.toUpper else u))
  | .num q => if cap then .error (.host "TypeError: text.toUpperCase is not a function") else .ok (.num q)

/-- Apply `clFinalText` across the joined label data, short-circuiting on
the first host error. -/
def clLabelsFinal (cap : Bool) : List (LabelText × ℚ) → Except LibError (List (LabelText × ℚ))
  | [] => .ok []
  | p :: ps =>
    match clFinalText cap p.1 with
    | .error e => .error e
    | .ok t =>
      match clLabelsFinal cap ps with
      | .error e => .error e
      | .ok rest => .ok ((t, p.2) :: rest)

/-- The circularLabels render (circularLabels.js lines 14–121): fills in the
default radius, reads the radial scale (a host `TypeError` when it was never
configured), and computes the label texts and offsets.  No input validation
happens anywhere. -/
def clRenderChecked (s : CLState) :
    Except LibError (CLState × List (LabelText × ℚ)) :=
  let s2 := { s with radius := some (s.radius.getD (min s.width s.height / 2)) }
  match s.radialScale with
  | none => .error (.host "TypeError: Cannot read property 'ticks' of undefined")
  | some rs =>
    match clLabelsFinal s2.capitalizeLabels (circularLabelData rs) with
    | .error e => .error e
    | .ok labels => .ok (s2, labels)

/-! ## Render entry points with an explicit error channel

These mirror the components' render control flow; the `validation`
constructor of `LibError` exists so that "the library never raises a
validation error" is a statement about the translated code, not a tautology
of the error type. -/

/-- Subtraction with JS NaN propagation. -/
def optSub (a b : Option ℚ) : Option ℚ := do pure ((← a) - (← b))

/-- The rendered attributes of one candle group: fill/stroke colours and the
open-close bar geometry (NaN-valued when a scale domain is undefined). -/
structure CandleVisAttrs where
  fill : String
  stroke : String
  barX : Option ℚ
  barY : Option ℚ
  barW : ℚ
  barH : Option ℚ
deriving Repr, DecidableEq

/-- Attributes of one candle, as produced inside `selection.each`
(candleSticks.js lines 102–120 and 164–171): `fill` and `stroke` each call
`colorScale(isUpDay(d))`, threading the ordinal scale's intern state. -/
def candleAttrsStep (xSc : TimeScale) (ySc : LinScale) (cw : ℚ)
    (cs : OrdinalScale Bool) (d : Candle) : CandleVisAttrs × OrdinalScale Bool :=
  let f := ordinalApply cs (isUpDay d)
  let g := ordinalApply f.2 (isUpDay d)
  ({ fill := f.1
     stroke := g.1
     barX := (timeScaleApply xSc d.date).map (· - cw)
     barY := if isUpDay d then linScaleApply ySc d.close else linScaleApply ySc d.«open»
     barW := cw * 2
     barH := if isUpDay d then optSub (linScaleApply ySc d.«open») (linScaleApply ySc d.close)
             else optSub (linScaleApply ySc d.close) (linScaleApply ySc d.«open») },
   g.2)

/-- Fold `candleAttrsStep` across the bound values. -/
def candleAttrsList (xSc : TimeScale) (ySc : LinScale) (cw : ℚ) :
    OrdinalScale Bool → List Candle → List CandleVisAttrs × OrdinalScale Bool
  | cs, [] => ([], cs)
  | cs, d :: ds =>
    let p := candleAttrsStep xSc ySc cw cs d
    let r := candleAttrsList xSc ySc cw p.2 ds
    (p.1 :: r.1, r.2)

/-- The candleSticks render entry point (candleSticks.js lines 71–180):
`init` followed by the per-candle attribute computation.  The catch-all
branch models the `TypeError` JS would raise if a scale were still
`undefined` when applied; `init` always prevents it. -/
def csRenderChecked (s : CSState) (data : CandleSeries) :
    Except LibError (CSState × List CandleVisAttrs) :=
  let s2 := csInit s data
  match s2.xScale, s2.yScale, s2.colorScale with
  | some xSc, some ySc, some cSc =>
    let r := candleAttrsList xSc ySc s2.candleWidth cSc data.values
    .ok ({ s2 with colorScale := some r.2 }, r.1)
  | _, _, _ => .error (.host "TypeError: xScale is not a function")

/-- The line-chart render entry point (part_000 lines 92–186): `init` does
all scale work; the rest is DOM joining.  Errors are exactly those of
`lcInit`. -/
def lcRenderChecked (s : LCState) (data : List LCSeries) :
    Except LibError (List LCSeries × LCState) :=
  lcInit s data

/-! ## Fluent getter/setter accessors

Each accessor mirrors the JS pattern
`function(_) { if (!arguments.length) return X; X = _; return this; }`:
called with an argument it stores it and returns the component (`self`);
called without, it returns the stored value — except the two `dispatch`
getters, whose source reads `return dispatch()`: they invoke the stored
d3 dispatch object, which is not callable, so a `TypeError` results. -/

/-- Result of calling one accessor: the component itself (chaining), a
returned value, or a raised error. -/
inductive AccResult (α : Type) where
  | self
  | val (v : α)
  | err (msg : String)
deriving Repr, DecidableEq

/-- candleSticks `my.width` (lines 188–192). -/
def cs_width (s : CSState) : Option ℚ → AccResult ℚ × CSState
  | none => (.val s.width, s)
  | some v => (.self, { s with width := v })

/-- candleSticks `my.height` (lines 200–204). -/
def cs_height (s : CSState) : Option ℚ → AccResult ℚ × CSState
  | none => (.val s.height, s)
  | some v => (.self, { s with height := v })

/-- candleSticks `my.colorScale` (lines 212–216). -/
def cs_colorScale (s : CSState) :
    Option (Option (OrdinalScale Bool)) → AccResult (Option (OrdinalScale Bool)) × CSState
  | none => (.val s.colorScale, s)
  | some v => (.self, { s with colorScale := v })

/-- candleSticks `my.colors` (lines 224–228). -/
def cs_colors (s : CSState) : Option (List String) → AccResult (List String) × CSState
  | none => (.val s.colors, s)
  | some v => (.self, { s with colors := v })

/-- candleSticks `my.xScale` (lines 236–240). -/
def cs_xScale (s : CSState) :
    Option (Option TimeScale) → AccResult (Option TimeScale) × CSState
  | none => (.val s.xScale, s)
  | some v => (.self, { s with xScale := v })

/-- candleSticks `my.yScale` (lines 248–252). -/
def cs_yScale (s : CSState) :
    Option (Option LinScale) → AccResult (Option LinScale) × CSState
  | none => (.val s.yScale, s)
  | some v => (.self, { s with yScale := v })

/-- candleSticks `my.candleWidth` (lines 260–264). -/
def cs_candleWidth (s : CSState) : Option ℚ → AccResult ℚ × CSState
  | none => (.val s.candleWidth, s)
  | some v => (.self, { s with candleWidth := v })

/-- candleSticks `my.dispatch` (lines 272–276): the getter path executes
`return dispatch()`, calling the stored d3 dispatch object — a `TypeError`,
not the stored value. -/
def cs_dispatch (s : CSState) : Option Dispatch → AccResult Dispatch × CSState
  | none => (.err "TypeError: dispatch is not a function", s)
  | some v => (.self, { s with dispatch := v })

/-- circularLabels `my.height` (lines 124–128). -/
def cl_height (s : CLState) : Option ℚ → AccResult ℚ × CLState
  | none => (.val s.height, s)
  | some v => (.self, { s with height := v })

/-- circularLabels `my.width` (lines 130–134). -/
def cl_width (s : CLState) : Option ℚ → AccResult ℚ × CLState
  | none => (.val s.width, s)
  | some v => (.self, { s with width := v })

/-- circularLabels `my.radius` (lines 136–140). -/
def cl_radius (s : CLState) : Option (Option ℚ) → AccResult (Option ℚ) × CLState
  | none => (.val s.radius, s)
  | some v => (.self, { s with radius := v })

/-- circularLabels `my.radialScale` (lines 142–146). -/
def cl_radialScale (s : CLState) :
    Option (Option RadialScale) → AccResult (Option RadialScale) × CLState
  | none => (.val s.radialScale, s)
  | some v => (.self, { s with radialScale := v })

/-- circularLabels `my.textAnchor` (lines 148–152). -/
def cl_textAnchor (s : CLState) : Option String → AccResult String × CLState
  | none => (.val s.textAnchor, s)
  | some v => (.self, { s with textAnchor := v })

/-- lineChart `my.width` (part_000 lines 191–195). -/
def lc_width (s : LCState) : Option ℚ → AccResult ℚ × LCState
  | none => (.val s.width, s)
  | some v => (.self, { s with width := v })

/-- lineChart `my.height` (part_000 lines 197–201). -/
def lc_height (s : LCState) : Option ℚ → AccResult ℚ × LCState
  | none => (.val s.height, s)
  | some v => (.self, { s with height := v })

/-- lineChart `my.margin` (part_000 lines 203–207). -/
def lc_margin (s : LCState) : Option Margin → AccResult Margin × LCState
  | none => (.val s.margin, s)
  | some v => (.self, { s with margin := v })

/-- lineChart `my.yAxisLabel` (part_000 lines 209–213). -/
def lc_yAxisLabel (s : LCState) : Option (Option String) → AccResult (Option String) × LCState
  | none => (.val s.yAxisLabel, s)
  | some v => (.self, { s with yAxisLabel := v })

/-- lineChart `my.transition` (part_000 lines 215–219). -/
def lc_transition (s : LCState) : Option TransitionSpec → AccResult TransitionSpec × LCState
  | none => (.val s.transition, s)
  | some v => (.self, { s with transition := v })

/-- lineChart `my.colors` (part_000 lines 221–225). -/
def lc_colors (s : LCState) : Option (List String) → AccResult (List String) × LCState
  | none => (.val s.colors, s)
  | some v => (.self, { s with colors := v })

/-- lineChart `my.colorScale` (part_000 lines 227–231). -/
def lc_colorScale (s : LCState) :
    Option (Option (OrdinalScale String)) → AccResult (Option (OrdinalScale String)) × LCState
  | none => (.val s.colorScale, s)
  | some v => (.self, { s with colorScale := v })

/-- lineChart `my.dispatch` (part_000 lines 233–237): the getter path
executes `return dispatch()`, a `TypeError` for a d3 dispatch object. -/
def lc_dispatch (s : LCState) : Option Dispatch → AccResult Dispatch × LCState
  | none => (.err "TypeError: dispatch is not a function", s)
  | some v => (.self, { s with dispatch := v })

/-! ### Evaluation lemmas for the `nice()` pipeline

The fuel recursion of `log10floorAux` is evaluated through the three step
lemmas below; concrete `tickStep`/`d3nice` values used later are derived
from them. -/

theorem log10floorAux_stop (fuel : ℕ) (q : ℚ) (acc : ℤ) (h1 : 1 ≤ q) (h2 : q < 10) :
    log10floorAux fuel q acc = acc := by
  cases fuel with
  | zero => rfl
  | succ n => rw [log10floorAux, if_neg (not_le.2 h2), if_neg (not_lt.2 h1)]

theorem log10floorAux_up (fuel : ℕ) (q : ℚ) (acc : ℤ) (h : q < 1) :
    log10floorAux (fuel + 1) q acc = log10floorAux fuel (q * 10) (acc - 1) := by
  rw [log10floorAux, if_neg (by linarith), if_pos h]

theorem log10floorAux_down (fuel : ℕ) (q : ℚ) (acc : ℤ) (h : 10 ≤ q) :
    log10floorAux (fuel + 1) q acc = log10floorAux fuel (q / 10) (acc + 1) := by
  rw [log10floorAux, if_pos h]

theorem log10floor_one : log10floor 1 = 0 := by
  rw [log10floor, log10floorAux_stop 700 1 0 (by norm_num) (by norm_num)]

theorem jsFloor_eq {q : ℚ} {n : ℤ} (h : ⌊q⌋ = n) : jsFloor q = (n : ℚ) := by
  rw [jsFloor, h]

theorem jsCeil_eq {q : ℚ} {n : ℤ} (h : ⌈q⌉ = n) : jsCeil q = (n : ℚ) := by
  rw [jsCeil, h]

theorem log10floor_17_20 : log10floor (17 / 20) = -1 := by
  rw [log10floor, show (700 : ℕ) = 699 + 1 from rfl,
    log10floorAux_up 699 _ _ (by norm_num)]
  rw [show (17 / 20 : ℚ) * 10 = 17 / 2 by norm_num,
    log10floorAux_stop 699 _ _ (by norm_num) (by norm_num)]
  norm_num

theorem log10floor_9_10 : log10floor (9 / 10) = -1 := by
  rw [log10floor, show (700 : ℕ) = 699 + 1 from rfl,
    log10floorAux_up 699 _ _ (by norm_num)]
  rw [show (9 / 10 : ℚ) * 10 = 9 by norm_num,
    log10floorAux_stop 699 _ _ (by norm_num) (by norm_num)]
  norm_num

theorem tickStep_1_19h : tickStep 1 (19 / 2) 10 = 1 := by
  simp only [tickStep]
  rw [abs_of_nonneg (by norm_num : (0 : ℚ) ≤ 19 / 2 - 1)]
  rw [show ((19 / 2 : ℚ) - 1) / ((10 : ℕ) : ℚ) = 17 / 20 by norm_num]
  rw [if_neg (by norm_num), log10floor_17_20]
  norm_num [pow10, tickFactor, geSqrt]

theorem tickStep_1_10 : tickStep 1 10 10 = 1 := by
  simp only [tickStep]
  rw [abs_of_nonneg (by norm_num : (0 : ℚ) ≤ 10 - 1)]
  rw [show ((10 : ℚ) - 1) / ((10 : ℕ) : ℚ) = 9 / 10 by norm_num]
  rw [if_neg (by norm_num), log10floor_9_10]
  norm_num [pow10, tickFactor, geSqrt]

theorem tickStep_0_10 : tickStep 0 10 10 = 1 := by
  simp only [tickStep]
  rw [abs_of_nonneg (by norm_num : (0 : ℚ) ≤ 10 - 0)]
  rw [show ((10 : ℚ) - 0) / ((10 : ℕ) : ℚ) = 1 by norm_num]
  rw [if_neg (by norm_num), log10floor_one]
  norm_num [pow10, tickFactor, geSqrt]

theorem d3nice_1_19h : d3nice 1 (19 / 2) = (1, 10) := by
  simp only [d3nice, tickStep_1_19h]
  rw [if_neg (by norm_num)]
  rw [show jsFloor (1 / 1) * 1 = 1 by
    rw [jsFloor_eq (by norm_num : ⌊(1 / 1 : ℚ)⌋ = 1)]; norm_num]
  rw [show jsCeil (19 / 2 / 1) * 1 = 10 by
    rw [jsCeil_eq (by rw [Int.ceil_eq_iff]; norm_num : ⌈(19 / 2 / 1 : ℚ)⌉ = 10)]; norm_num]
  rw [tickStep_1_10]
  rw [jsFloor_eq (by norm_num : ⌊(1 / 1 : ℚ)⌋ = 1),
    jsCeil_eq (by rw [Int.ceil_eq_iff]; norm_num : ⌈(19 / 2 / 1 : ℚ)⌉ = 10)]
  norm_num

theorem d3nice_0_10 : d3nice 0 10 = (0, 10) := by
  simp only [d3nice, tickStep_0_10]
  rw [if_neg (by norm_num)]
  rw [show jsFloor (0 / 1) * 1 = 0 by
    rw [jsFloor_eq (by norm_num : ⌊(0 / 1 : ℚ)⌋ = 0)]; norm_num]
  rw [show jsCeil (10 / 1) * 1 = 10 by
    rw [jsCeil_eq (by norm_num : ⌈(10 / 1 : ℚ)⌉ = 10)]; norm_num]
  rw [tickStep_0_10]
  rw [jsFloor_eq (by norm_num : ⌊(0 / 1 : ℚ)⌋ = 0),
    jsCeil_eq (by norm_num : ⌈(10 / 1 : ℚ)⌉ = 10)]
  norm_num

/-! First sanity examples (concrete evaluations of the embedding). -/

example : isUpDay { date := 0, «open» := 2, high := 5, low := 1, close := 3 } = true := by
  decide

example : candleColor defaultCandleColorScale
    { date := 0, «open» := 2, high := 5, low := 1, close := 3 } =
    ("green", defaultCandleColorScale) := by decide


example : circularLabelData (.band ["a", "b", "c", "d"] (0, 360)) =
    [(.str "a", 0), (.str "b", 25), (.str "c", 50), (.str "d", 75)] := by
  norm_num [circularLabelData, circularTickData, RadialScale.range, linInterp,
    List.enum, List.enumFrom]


example :
    lcInit
      { width := 400, height := 300,
        margin := { top := 20, right := 20, bottom := 40, left := 40 },
        transition := { ease := "easeBounce", duration := 500 },
        colors := ["#00c", "#0c0", "#c00"],
        dispatch := { types := [] },
        chartW := none, chartH := none, xScale := none, yScale := none,
        colorScale := none, yAxisLabel := none }
      [{ key := "A", values := [{ key := 1, value := 5 }, { key := 2, value := 6 }] }] =
    .ok ([{ key := "A", values := [{ key := 1000, value := 5 }, { key := 2000, value := 6 }] }],
      { width := 400, height := 300,
        margin := { top := 20, right := 20, bottom := 40, left := 40 },
        transition := { ease := "easeBounce", duration := 500 },
        colors := ["#00c", "#0c0", "#c00"],
        dispatch := { types := [] },
        chartW := some 340, chartH := some 240,
        xScale := some { domain := (some 1000, some 2000), range := (0, 340) },
        yScale := some { domain := (some 0, some (63 / 10)), range := (240, 0) },
        colorScale := some { domain := ["A"], range := ["#00c", "#0c0", "#c00"] },
        yAxisLabel := none }) := by
  norm_num [lcInit, lcMaxValue, lcGroupNames, lcConvertDates, d3extentQ, d3minQ, d3maxQ]


/-! ## Claim theorems -/

/-- C1: every candle is classified up iff `close > open`, its fill and stroke
are both `colorScale(isUpDay(d))`, and under the default ordinal scale
(domain `[true, false]`, range `["green", "red"]`) an up day is "green" and
any other day "red"; the scale is returned unchanged, so the same
classification gets the same colour on every render. -/
theorem candleSticks_upDayColor (d : Candle) :
    (isUpDay d = true ↔ d.close > d.«open») ∧
    (∀ (xSc : TimeScale) (ySc : LinScale) (cw : ℚ) (cs : OrdinalScale Bool),
      (candleAttrsStep xSc ySc cw cs d).1.fill = (ordinalApply cs (isUpDay d)).1 ∧
      (candleAttrsStep xSc ySc cw cs d).1.stroke =
        (ordinalApply (ordinalApply cs (isUpDay d)).2 (isUpDay d)).1) ∧
    candleColor defaultCandleColorScale d =
      ((if d.close > d.«open» then "green" else "red"), defaultCandleColorScale) ∧
    (∀ (xSc : TimeScale) (ySc : LinScale) (cw : ℚ),
      (candleAttrsStep xSc ySc cw defaultCandleColorScale d).1.fill =
        (if d.close > d.«open» then "green" else "red") ∧
      (candleAttrsStep xSc ySc cw defaultCandleColorScale d).1.stroke =
        (if d.close > d.«open» then "green" else "red") ∧
      (candleAttrsStep xSc ySc cw defaultCandleColorScale d).2 = defaultCandleColorScale) := by
  refine ⟨by simp [isUpDay], fun _ _ _ _ => ⟨rfl, rfl⟩, ?_, ?_⟩ <;>
    by_cases h : d.close > d.«open» <;>
      simp [candleColor, candleAttrsStep, ordinalApply, isUpDay, h, domainIndex,
        defaultCandleColorScale]

/-- C8: the open-close bar has `x = xScale(d.date) - candleWidth`,
`width = candleWidth * 2`, its `y`/`height` follow the `close > open`
branch, and for a decreasing y-scale the height is non-negative. -/
theorem candleSticks_openCloseBar (xS : ℤ → ℚ) (yS : ℚ → ℚ) (cw : ℚ) (d : Candle)
    (hmono : ∀ a b : ℚ, a ≤ b → yS b ≤ yS a) :
    (openCloseBarRect xS yS cw d).x = xS d.date - cw ∧
    (openCloseBarRect xS yS cw d).width = cw * 2 ∧
    (d.close > d.«open» →
      (openCloseBarRect xS yS cw d).y = yS d.close ∧
      (openCloseBarRect xS yS cw d).height = yS d.«open» - yS d.close) ∧
    (¬ d.close > d.«open» →
      (openCloseBarRect xS yS cw d).y = yS d.«open» ∧
      (openCloseBarRect xS yS cw d).height = yS d.close - yS d.«open») ∧
    0 ≤ (openCloseBarRect xS yS cw d).height := by
  by_cases h : d.close > d.«open»
  · refine ⟨rfl, rfl, fun _ => ⟨?_, ?_⟩, fun hc => absurd h hc, ?_⟩ <;>
      simp [openCloseBarRect, isUpDay, h]
    have := hmono d.«open» d.close (le_of_lt h)
    linarith
  · refine ⟨rfl, rfl, fun hc => absurd hc h, fun _ => ⟨?_, ?_⟩, ?_⟩ <;>
      simp [openCloseBarRect, isUpDay, h]
    have := hmono d.close d.«open» (not_lt.mp h)
    linarith

/-- Witness for C8 at a concrete up-day candle with the decreasing scale
`y ↦ 400 - y`. -/
theorem candleSticks_openCloseBar_witness :
    (openCloseBarRect (fun _ => 100) (fun q => 400 - q) 3
        { date := 0, «open» := 2, high := 5, low := 1, close := 3 }).x = 100 - 3 ∧
    (openCloseBarRect (fun _ => 100) (fun q => 400 - q) 3
        { date := 0, «open» := 2, high := 5, low := 1, close := 3 }).width = 3 * 2 ∧
    ((3 : ℚ) > 2 →
      (openCloseBarRect (fun _ => 100) (fun q => 400 - q) 3
        { date := 0, «open» := 2, high := 5, low := 1, close := 3 }).y = 400 - 3 ∧
      (openCloseBarRect (fun _ => 100) (fun q => 400 - q) 3
        { date := 0, «open» := 2, high := 5, low := 1, close := 3 }).height = (400 - 2) - (400 - 3)) ∧
    (¬ (3 : ℚ) > 2 →
      (openCloseBarRect (fun _ => 100) (fun q => 400 - q) 3
        { date := 0, «open» := 2, high := 5, low := 1, close := 3 }).y = 400 - 2 ∧
      (openCloseBarRect (fun _ => 100) (fun q => 400 - q) 3
        { date := 0, «open» := 2, high := 5, low := 1, close := 3 }).height = (400 - 3) - (400 - 2)) ∧
    0 ≤ (openCloseBarRect (fun _ => 100) (fun q => 400 - q) 3
        { date := 0, «open» := 2, high := 5, low := 1, close := 3 }).height :=
  candleSticks_openCloseBar (fun _ => 100) (fun q => 400 - q) 3
    { date := 0, «open» := 2, high := 5, low := 1, close := 3 }
    (fun a b h => by simp only []; linarith)

/-- C10: a candle with `close = open` is a down day: `isUpDay` is `false`,
the default colour is "red", and the bar height is
`yScale(close) - yScale(open) = 0`. -/
theorem candleSticks_dojiIsDownDay (d : Candle) (xS : ℤ → ℚ) (yS : ℚ → ℚ) (cw : ℚ)
    (h : d.close = d.«open») :
    isUpDay d = false ∧
    candleColor defaultCandleColorScale d = ("red", defaultCandleColorScale) ∧
    (openCloseBarRect xS yS cw d).height = yS d.close - yS d.«open» ∧
    (openCloseBarRect xS yS cw d).height = 0 := by
  have hup : isUpDay d = false := by simp [isUpDay, h]
  refine ⟨hup, ?_, ?_, ?_⟩
  · simp [candleColor, hup, ordinalApply, domainIndex, defaultCandleColorScale]
  · simp [openCloseBarRect, hup]
  · simp [openCloseBarRect, hup, h]

/-- Witness for C10 at a concrete doji candle (`open = close = 2`). -/
theorem candleSticks_dojiIsDownDay_witness :
    isUpDay { date := 0, «open» := 2, high := 5, low := 1, close := 2 } = false ∧
    candleColor defaultCandleColorScale
      { date := 0, «open» := 2, high := 5, low := 1, close := 2 } =
      ("red", defaultCandleColorScale) ∧
    (openCloseBarRect (fun _ => 100) (fun q => 400 - q) 3
      { date := 0, «open» := 2, high := 5, low := 1, close := 2 }).height = (400 - 2) - (400 - 2) ∧
    (openCloseBarRect (fun _ => 100) (fun q => 400 - q) 3
      { date := 0, «open» := 2, high := 5, low := 1, close := 2 }).height = 0 :=
  candleSticks_dojiIsDownDay
    { date := 0, «open» := 2, high := 5, low := 1, close := 2 }
    (fun _ => 100) (fun q => 400 - q) 3 rfl

/-- C4: the i-th circular label is the i-th tick itself, with startOffset
percentage `(textScale(i) / 360) * 100` where `textScale` is linear with
domain `[0, n]` and range `radialScale.range()`; for a radial range of
`[0, 360]` the offset is `i * 100 / n`, and the label texts are exactly the
ticks (the dead `newtick` computation never reaches them). -/
theorem circularLabels_offsets (rs : RadialScale) (i : ℕ) (t : LabelText)
    (ht : (circularTickData rs)[i]? = some t) :
    (circularLabelData rs)[i]? =
      some (t, linInterp 0 ((circularTickData rs).length : ℚ)
        rs.range.1 rs.range.2 (i : ℚ) / 360 * 100) ∧
    (circularLabelData rs).map Prod.fst = circularTickData rs ∧
    (rs.range = (0, 360) →
      linInterp 0 ((circularTickData rs).length : ℚ)
          rs.range.1 rs.range.2 (i : ℚ) / 360 * 100
        = (i : ℚ) * 100 / ((circularTickData rs).length : ℚ)) := by
  have hlen : i < (circularTickData rs).length := by
    by_contra hge
    rw [List.getElem?_eq_none (le_of_not_lt hge)] at ht
    exact Option.noConfusion ht
  refine ⟨?_, ?_, ?_⟩
  · simp only [circularLabelData, List.getElem?_map, List.getElem?_enum, ht, Option.map_some']
  · simp only [circularLabelData, List.map_map]
    have : (Prod.fst ∘ fun p : ℕ × LabelText =>
        (p.2, linInterp 0 ((circularTickData rs).length : ℚ)
          rs.range.1 rs.range.2 (p.1 : ℚ) / 360 * 100)) = Prod.snd := rfl
    rw [this, List.enum_map_snd]
  · intro hr
    have hpos : 0 < (circularTickData rs).length := lt_of_le_of_lt (Nat.zero_le i) hlen
    have hn : ((circularTickData rs).length : ℚ) ≠ 0 := by
      exact_mod_cast Nat.pos_iff_ne_zero.mp hpos
    rw [hr]
    simp only [linInterp]
    rw [if_neg (by simpa using hn)]
    field_simp
    ring

/-- Witness for C4: a band radial scale over four categories with range
`[0, 360]`; the second label is "b" at offset 25 = 1 * 100 / 4. -/
theorem circularLabels_offsets_witness :
    (circularLabelData (.band ["a", "b", "c", "d"] (0, 360)))[1]? =
      some (.str "b", linInterp 0
        ((circularTickData (.band ["a", "b", "c", "d"] (0, 360))).length : ℚ)
        (RadialScale.band ["a", "b", "c", "d"] (0, 360)).range.1
        (RadialScale.band ["a", "b", "c", "d"] (0, 360)).range.2 (1 : ℚ) / 360 * 100) ∧
    (circularLabelData (.band ["a", "b", "c", "d"] (0, 360))).map Prod.fst =
      circularTickData (.band ["a", "b", "c", "d"] (0, 360)) ∧
    ((RadialScale.band ["a", "b", "c", "d"] (0, 360)).range = (0, 360) →
      linInterp 0 ((circularTickData (.band ["a", "b", "c", "d"] (0, 360))).length : ℚ)
          (RadialScale.band ["a", "b", "c", "d"] (0, 360)).range.1
          (RadialScale.band ["a", "b", "c", "d"] (0, 360)).range.2 (1 : ℚ) / 360 * 100
        = (1 : ℚ) * 100 / ((circularTickData (.band ["a", "b", "c", "d"] (0, 360))).length : ℚ)) :=
  circularLabels_offsets (.band ["a", "b", "c", "d"] (0, 360)) 1 (.str "b")
    (by simp [circularTickData])

/-- C9: calling the `colors` setter after construction updates the stored
colours (visible through the getter) but leaves the rendered colour scale
untouched: `colorScale` was built at construction and `init` only rebuilds
it when it is `undefined`, so the candles keep the original green/red
scale. -/
theorem candleSticks_colorsSetterInert (newColors : List String) (data : CandleSeries) :
    (cs_colors csInitialState (some newColors)).1 = AccResult.self ∧
    (cs_colors (cs_colors csInitialState (some newColors)).2 none).1 = .val newColors ∧
    (csInit (cs_colors csInitialState (some newColors)).2 data).colorScale =
      some defaultCandleColorScale ∧
    (csInit (cs_colors csInitialState (some newColors)).2 data).colorScale =
      (csInit csInitialState data).colorScale := by
  refine ⟨rfl, rfl, ?_, ?_⟩ <;> simp [cs_colors, csInit, csInitialState]

/-- C6 counterexample: the candleSticks `dispatch` getter does not return
the stored dispatcher — its `return dispatch()` invokes the stored d3
dispatch object, which is not callable. -/
theorem dispatchGetter_counterexample :
    (cs_dispatch csInitialState none).1 ≠ AccResult.val csInitialState.dispatch ∧
    (cs_dispatch csInitialState none).1 =
      .err "TypeError: dispatch is not a function" := by
  exact ⟨by simp [cs_dispatch], rfl⟩

/-- C6 (amended): every chained configuration method of the three
components stores its argument, returns the component for chaining, and
leaves all other state unchanged; every getter returns the stored value and
modifies nothing — with the single exception of the `dispatch` getters,
which invoke the stored dispatcher (`return dispatch()`) instead of
returning it, a `TypeError` for a d3 dispatch object. -/
theorem accessors_fluent :
    (∀ (s : CSState) (v : ℚ), cs_width s (some v) = (.self, { s with width := v })) ∧
    (∀ s : CSState, cs_width s none = (.val s.width, s)) ∧
    (∀ (s : CSState) (v : ℚ), cs_height s (some v) = (.self, { s with height := v })) ∧
    (∀ s : CSState, cs_height s none = (.val s.height, s)) ∧
    (∀ (s : CSState) (v : Option (OrdinalScale Bool)),
      cs_colorScale s (some v) = (.self, { s with colorScale := v })) ∧
    (∀ s : CSState, cs_colorScale s none = (.val s.colorScale, s)) ∧
    (∀ (s : CSState) (v : List String), cs_colors s (some v) = (.self, { s with colors := v })) ∧
    (∀ s : CSState, cs_colors s none = (.val s.colors, s)) ∧
    (∀ (s : CSState) (v : Option TimeScale),
      cs_xScale s (some v) = (.self, { s with xScale := v })) ∧
    (∀ s : CSState, cs_xScale s none = (.val s.xScale, s)) ∧
    (∀ (s : CSState) (v : Option LinScale),
      cs_yScale s (some v) = (.self, { s with yScale := v })) ∧
    (∀ s : CSState, cs_yScale s none = (.val s.yScale, s)) ∧
    (∀ (s : CSState) (v : ℚ), cs_candleWidth s (some v) = (.self, { s with candleWidth := v })) ∧
    (∀ s : CSState, cs_candleWidth s none = (.val s.candleWidth, s)) ∧
    (∀ (s : CSState) (v : Dispatch), cs_dispatch s (some v) = (.self, { s with dispatch := v })) ∧
    (∀ s : CSState, cs_dispatch s none =
      (.err "TypeError: dispatch is not a function", s)) ∧
    (∀ (s : CLState) (v : ℚ), cl_height s (some v) = (.self, { s with height := v })) ∧
    (∀ s : CLState, cl_height s none = (.val s.height, s)) ∧
    (∀ (s : CLState) (v : ℚ), cl_width s (some v) = (.self, { s with width := v })) ∧
    (∀ s : CLState, cl_width s none = (.val s.width, s)) ∧
    (∀ (s : CLState) (v : Option ℚ), cl_radius s (some v) = (.self, { s with radius := v })) ∧
    (∀ s : CLState, cl_radius s none = (.val s.radius, s)) ∧
    (∀ (s : CLState) (v : Option RadialScale),
      cl_radialScale s (some v) = (.self, { s with radialScale := v })) ∧
    (∀ s : CLState, cl_radialScale s none = (.val s.radialScale, s)) ∧
    (∀ (s : CLState) (v : String), cl_textAnchor s (some v) = (.self, { s with textAnchor := v })) ∧
    (∀ s : CLState, cl_textAnchor s none = (.val s.textAnchor, s)) ∧
    (∀ (s : LCState) (v : ℚ), lc_width s (some v) = (.self, { s with width := v })) ∧
    (∀ s : LCState, lc_width s none = (.val s.width, s)) ∧
    (∀ (s : LCState) (v : ℚ), lc_height s (some v) = (.self, { s with height := v })) ∧
    (∀ s : LCState, lc_height s none = (.val s.height, s)) ∧
    (∀ (s : LCState) (v : Margin), lc_margin s (some v) = (.self, { s with margin := v })) ∧
    (∀ s : LCState, lc_margin s none = (.val s.margin, s)) ∧
    (∀ (s : LCState) (v : Option String),
      lc_yAxisLabel s (some v) = (.self, { s with yAxisLabel := v })) ∧
    (∀ s : LCState, lc_yAxisLabel s none = (.val s.yAxisLabel, s)) ∧
    (∀ (s : LCState) (v : TransitionSpec),
      lc_transition s (some v) = (.self, { s with transition := v })) ∧
    (∀ s : LCState, lc_transition s none = (.val s.transition, s)) ∧
    (∀ (s : LCState) (v : List String), lc_colors s (some v) = (.self, { s with colors := v })) ∧
    (∀ s : LCState, lc_colors s none = (.val s.colors, s)) ∧
    (∀ (s : LCState) (v : Option (OrdinalScale String)),
      lc_colorScale s (some v) = (.self, { s with colorScale := v })) ∧
    (∀ s : LCState, lc_colorScale s none = (.val s.colorScale, s)) ∧
    (∀ (s : LCState) (v : Dispatch), lc_dispatch s (some v) = (.self, { s with dispatch := v })) ∧
    (∀ s : LCState, lc_dispatch s none =
      (.err "TypeError: dispatch is not a function", s)) := by
  refine ⟨?_, ?_, ?_, ?_, ?_, ?_, ?_, ?_, ?_, ?_, ?_, ?_, ?_, ?_, ?_, ?_, ?_, ?_, ?_, ?_,
    ?_, ?_, ?_, ?_, ?_, ?_, ?_, ?_, ?_, ?_, ?_, ?_, ?_, ?_, ?_, ?_, ?_, ?_, ?_, ?_, ?_, ?_⟩ <;>
    intros <;> rfl

/-- Helper: the label finaliser can only raise host errors
(`toUpperCase` on a number), never a validation error. -/
theorem clFinalText_not_validation (cap : Bool) (t : LabelText) (msg : String) :
    clFinalText cap t ≠ .error (.validation msg) := by
  cases t <;> cases cap <;> simp [clFinalText]

/-- Helper: `clLabelsFinal` never raises a validation error. -/
theorem clLabelsFinal_not_validation (cap : Bool) (msg : String) :
    ∀ l : List (LabelText × ℚ), clLabelsFinal cap l ≠ .error (.validation msg)
  | [] => by simp [clLabelsFinal]
  | p :: ps => by
    simp only [clLabelsFinal]
    cases hf : clFinalText cap p.1 with
    | error e =>
      simp only []
      intro h
      injection h with h1
      exact clFinalText_not_validation cap p.1 msg (by rw [hf, h1])
    | ok t =>
      cases hm : clLabelsFinal cap ps with
      | error e =>
        simp only []
        intro h
        injection h with h1
        exact clLabelsFinal_not_validation cap msg ps (by rw [hm, h1])
      | ok rest => simp

/-- Helper: after `csInit` all three scales are populated. -/
theorem csInit_scales_isSome (s : CSState) (data : CandleSeries) :
    (∃ x, (csInit s data).xScale = some x) ∧
    (∃ y, (csInit s data).yScale = some y) ∧
    (∃ c, (csInit s data).colorScale = some c) := by
  refine ⟨?_, ?_, ?_⟩
  · rcases hx : s.xScale with _ | sc <;> simp [csInit, hx]
  · rcases hy : s.yScale with _ | sc <;> simp [csInit, hy]
  · rcases hc : s.colorScale with _ | sc <;> simp [csInit, hc]

/-- C7: no render entry point of the library ever raises a validation
error.  The candleSticks render succeeds on every input (empty or
otherwise; missing extents become silent NaN domains), and the line chart
and circularLabels renders can only fail with errors raised by the host
library (a `TypeError` on `data[0].values` of empty data, an undefined
radial scale, or `toUpperCase` on a numeric tick). -/
theorem library_raises_no_validation :
    (∀ (s : CSState) (data : CandleSeries),
      (∀ msg, csRenderChecked s data ≠ .error (.validation msg)) ∧
      ∃ out, csRenderChecked s data = .ok out) ∧
    (∀ (s : LCState) (data : List LCSeries) (msg : String),
      lcRenderChecked s data ≠ .error (.validation msg)) ∧
    (∀ (s : CLState) (msg : String), clRenderChecked s ≠ .error (.validation msg)) := by
  refine ⟨?_, ?_, ?_⟩
  · intro s data
    obtain ⟨⟨xsc, hx⟩, ⟨ysc, hy⟩, ⟨csc, hc⟩⟩ := csInit_scales_isSome s data
    have hok : csRenderChecked s data =
        .ok ({ csInit s data with
                colorScale := some (candleAttrsList xsc ysc (csInit s data).candleWidth
                  csc data.values).2 },
             (candleAttrsList xsc ysc (csInit s data).candleWidth csc data.values).1) := by
      simp [csRenderChecked, hx, hy, hc]
    exact ⟨fun msg => by simp [hok], ⟨_, hok⟩⟩
  · intro s data msg
    cases hd : lcConvertDates data with
    | nil => simp [lcRenderChecked, lcInit, hd]
    | cons s0 rest => simp [lcRenderChecked, lcInit, hd]
  · intro s msg
    cases hrs : s.radialScale with
    | none => simp [clRenderChecked, hrs]
    | some rs =>
      simp only [clRenderChecked, hrs]
      cases hl : clLabelsFinal s.capitalizeLabels (circularLabelData rs) with
      | error e =>
        simp only []
        intro h
        injection h with h1
        exact clLabelsFinal_not_validation s.capitalizeLabels msg _ (by rw [hl, h1])
      | ok labels => simp

/-- C2 (amended): when neither scale was configured before render, `init`
builds the x time scale with domain
`[minDate - 86400000 ms, maxDate + 86400000 ms]` and range `[0, width]`,
and the y linear scale with range `[height, 0]` and domain equal to
`[min low, max high]` extended by the scale's `nice()` rounding (d3 `nice`
with the default tick count 10). -/
theorem candleSticks_defaultScales (s : CSState) (data : CandleSeries)
    (dmin dmax : ℤ) (lo hi : ℚ)
    (hx : s.xScale = none) (hy : s.yScale = none)
    (hdmin : d3minZ (data.values.map (·.date)) = some dmin)
    (hdmax : d3maxZ (data.values.map (·.date)) = some dmax)
    (hlo : d3minQ (data.values.map (·.low)) = some lo)
    (hhi : d3maxQ (data.values.map (·.high)) = some hi) :
    (csInit s data).xScale =
      some { domain := (some (dmin - 86400000), some (dmax + 86400000)),
             range := (0, s.width) } ∧
    (csInit s data).yScale =
      some { domain := (some (d3nice lo hi).1, some (d3nice lo hi).2),
             range := (s.height, 0) } := by
  constructor
  · simp [csInit, hx, hdmin, hdmax]
  · simp [csInit, hy, hlo, hhi, niceOpt]

/-- Witness for C2 at one candle (date 0, low 0, high 10) on a freshly
constructed component: `nice` leaves `[0, 10]` unchanged. -/
theorem candleSticks_defaultScales_witness :
    (csInit csInitialState
        { key := "S", values := [{ date := 0, «open» := 2, high := 10, low := 0, close := 3 }] }).xScale =
      some { domain := (some ((0 : ℤ) - 86400000), some ((0 : ℤ) + 86400000)),
             range := (0, csInitialState.width) } ∧
    (csInit csInitialState
        { key := "S", values := [{ date := 0, «open» := 2, high := 10, low := 0, close := 3 }] }).yScale =
      some { domain := (some (d3nice 0 10).1, some (d3nice 0 10).2),
             range := (csInitialState.height, 0) } :=
  candleSticks_defaultScales csInitialState
    { key := "S", values := [{ date := 0, «open» := 2, high := 10, low := 0, close := 3 }] }
    0 0 0 10 rfl rfl (by simp [d3minZ]) (by simp [d3maxZ]) (by simp [d3minQ]) (by simp [d3maxQ])

/-- The single-candle series refuting the raw-extent reading of C2:
`low = 1`, `high = 9.5`. -/
def c2Data : CandleSeries :=
  { key := "S", values := [{ date := 0, «open» := 2, high := 19 / 2, low := 1, close := 3 }] }

/-- C2 counterexample: for `c2Data` the price extent is `[1, 9.5]`, yet the
computed y-scale domain is `[1, 10]` — `nice()` moved the upper endpoint,
so the domain is not `[min low, max high]`. -/
theorem candleSticks_yDomain_not_raw_extent :
    d3minQ (c2Data.values.map (·.low)) = some 1 ∧
    d3maxQ (c2Data.values.map (·.high)) = some (19 / 2) ∧
    (csInit csInitialState c2Data).yScale =
      some { domain := (some 1, some 10), range := (400, 0) } ∧
    (some (10 : ℚ) : Option ℚ) ≠ some (19 / 2) := by
  refine ⟨by simp [c2Data, d3minQ], by simp [c2Data, d3maxQ], ?_, by norm_num⟩
  have h : niceOpt (some 1, some (19 / 2)) = (some 1, some 10) := by
    simp [niceOpt, d3nice_1_19h]
  simp [csInit, csInitialState, c2Data, d3minQ, d3maxQ, niceOpt, d3nice_1_19h]

/-- C3: on every render the line chart's y-scale is linear with domain
`[0, maxValue * 1.05]` and range `[chartH, 0]`, and its x-scale's domain is
the extent of the converted (second-to-millisecond) date keys of the first
series with range `[0, chartW]`, where `chartW`/`chartH` subtract the
margins from width/height. -/
theorem lineChart_scales (s : LCState) (data data2 : List LCSeries) (s2 : LCState)
    (m : ℚ) (s0 : LCSeries)
    (hrender : lcInit s data = .ok (data2, s2))
    (hmax : lcMaxValue data = some m)
    (hhead : data.head? = some s0) :
    s2.chartW = some (s.width - s.margin.left - s.margin.right) ∧
    s2.chartH = some (s.height - s.margin.top - s.margin.bottom) ∧
    s2.xScale = some { domain := d3extentQ (s0.values.map (·.key * 1000)),
                       range := (0, s.width - s.margin.left - s.margin.right) } ∧
    s2.yScale = some { domain := (some 0, some (m * (21 / 20))),
                       range := (s.height - s.margin.top - s.margin.bottom, 0) } ∧
    data2 = lcConvertDates data := by
  cases data with
  | nil => simp at hhead
  | cons d ds =>
    have hs0 : s0 = d := by
      simp only [List.head?_cons, Option.some.injEq] at hhead
      exact hhead.symm
    subst hs0
    simp only [lcInit, lcConvertDates, List.map_cons, hmax, Except.ok.injEq,
      Prod.mk.injEq] at hrender
    obtain ⟨h1, h2⟩ := hrender
    subst h2
    refine ⟨rfl, rfl, ?_, rfl, ?_⟩
    · simp [List.map_map]
      rfl
    · rw [← h1]
      simp [lcConvertDates]

/-- A fresh line-chart component state (part_000 lines 15–43) with the
default dimensions and a concrete colour palette. -/
def lcTestState : LCState where
  width := 400
  height := 300
  margin := { top := 20, right := 20, bottom := 40, left := 40 }
  transition := { ease := "easeBounce", duration := 500 }
  colors := ["#00c", "#0c0", "#c00"]
  dispatch := { types := [] }
  chartW := none
  chartH := none
  xScale := none
  yScale := none
  colorScale := none
  yAxisLabel := none

/-- A one-series, two-point input for the line chart: epoch-second keys 1
and 2, values 5 and 6. -/
def c5Data : List LCSeries :=
  [{ key := "A", values := [{ key := 1, value := 5 }, { key := 2, value := 6 }] }]

/-- The same input after the first render's in-place date conversion. -/
def c5Data1 : List LCSeries :=
  [{ key := "A", values := [{ key := 1000, value := 5 }, { key := 2000, value := 6 }] }]

/-- The state after the first render of `c5Data`. -/
def c5State1 : LCState :=
  { lcTestState with
    chartW := some 340
    chartH := some 240
    xScale := some { domain := (some 1000, some 2000), range := (0, 340) }
    yScale := some { domain := (some 0, some (63 / 10)), range := (240, 0) }
    colorScale := some { domain := ["A"], range := ["#00c", "#0c0", "#c00"] } }

/-- The twice-converted input: each key multiplied by 1000 again. -/
def c5Data2 : List LCSeries :=
  [{ key := "A", values := [{ key := 1000000, value := 5 }, { key := 2000000, value := 6 }] }]

/-- The state after the second render. -/
def c5State2 : LCState :=
  { c5State1 with
    xScale := some { domain := (some 1000000, some 2000000), range := (0, 340) } }

/-- The first (and only) series of `c5Data`. -/
def c5Series0 : LCSeries :=
  { key := "A", values := [{ key := 1, value := 5 }, { key := 2, value := 6 }] }

/-- Witness for C3: the first render of `c5Data` (max value 6) on a fresh
line chart. -/
theorem lineChart_scales_witness :
    c5State1.chartW = some (lcTestState.width - lcTestState.margin.left - lcTestState.margin.right) ∧
    c5State1.chartH = some (lcTestState.height - lcTestState.margin.top - lcTestState.margin.bottom) ∧
    c5State1.xScale = some { domain := d3extentQ (c5Series0.values.map (·.key * 1000)),
                             range := (0, lcTestState.width - lcTestState.margin.left - lcTestState.margin.right) } ∧
    c5State1.yScale = some { domain := (some 0, some (6 * (21 / 20))),
                             range := (lcTestState.height - lcTestState.margin.top - lcTestState.margin.bottom, 0) } ∧
    c5Data1 = lcConvertDates c5Data :=
  lineChart_scales lcTestState c5Data c5Data1 c5State1 6 c5Series0
    (by norm_num [lcInit, lcTestState, c5Data, c5Data1, c5State1, lcMaxValue, lcGroupNames,
      lcConvertDates, d3extentQ, d3minQ, d3maxQ])
    (by norm_num [lcMaxValue, c5Data, d3maxQ])
    (by simp [c5Data, c5Series0])

/-- C5 (amended): all derived values are recomputed from the bound input on
each render call and only the scale/axis closure state survives — for
candleSticks a second render with the same input keeps exactly the scales
of the first (`init` is idempotent once the scales exist) and the input is
never written to; the line chart's `init`, however, mutates the raw input:
every render replaces each date key by its 1000-fold (`new Date(key * 1000)`
written back in place), so its returned data differs from the raw input and
a second render computes different x-domains. -/
theorem renders_recompute_and_mutate (s : CSState) (data : CandleSeries)
    (ls : LCState) (ldata ldata2 : List LCSeries) (ls2 : LCState)
    (h : lcInit ls ldata = .ok (ldata2, ls2)) :
    csInit (csInit s data) data = csInit s data ∧
    ldata2 = lcConvertDates ldata := by
  constructor
  · obtain ⟨⟨x, hx⟩, ⟨y, hy⟩, ⟨c, hc⟩⟩ := csInit_scales_isSome s data
    rcases hs : csInit s data with ⟨w, ht, tr, co, dp, xs, ys, cs, cw⟩
    rw [hs] at hx hy hc
    simp only at hx hy hc
    subst hx hy hc
    simp [csInit]
  · rcases hd : lcConvertDates ldata with _ | ⟨s0, rest⟩
    · rw [lcInit] at h
      simp only [hd] at h
      exact absurd h (by simp)
    · simp only [lcInit, hd, Except.ok.injEq, Prod.mk.injEq] at h
      exact h.1.symm

/-- Witness for C5 at concrete inputs: the candleSticks init is idempotent
on a one-candle series, and the line chart's first render of `c5Data`
returns the converted (mutated) data. -/
theorem renders_recompute_and_mutate_witness :
    csInit (csInit csInitialState c2Data) c2Data = csInit csInitialState c2Data ∧
    c5Data1 = lcConvertDates c5Data :=
  renders_recompute_and_mutate csInitialState c2Data lcTestState c5Data c5Data1 c5State1
    (by norm_num [lcInit, lcTestState, c5Data, c5Data1, c5State1, lcMaxValue, lcGroupNames,
      lcConvertDates, d3extentQ, d3minQ, d3maxQ])

/-- C5 counterexample: rendering the line chart twice with the very same
data object does not reproduce the first render's scale domains — the first
render leaves the keys multiplied by 1000 in the raw input, so the second
render's x-domain is `[1000000, 2000000]` instead of `[1000, 2000]`, and
the data after the first render differs from the raw input. -/
theorem lineChart_secondRender_counterexample :
    lcInit lcTestState c5Data = .ok (c5Data1, c5State1) ∧
    lcInit c5State1 c5Data1 = .ok (c5Data2, c5State2) ∧
    c5State1.xScale = some { domain := (some 1000, some 2000), range := (0, 340) } ∧
    c5State2.xScale = some { domain := (some 1000000, some 2000000), range := (0, 340) } ∧
    c5State1.xScale ≠ c5State2.xScale ∧
    c5Data1 ≠ c5Data := by
  refine ⟨?_, ?_, rfl, rfl, ?_, ?_⟩
  · norm_num [lcInit, lcTestState, c5Data, c5Data1, c5State1, lcMaxValue, lcGroupNames,
      lcConvertDates, d3extentQ, d3minQ, d3maxQ]
  · norm_num [lcInit, lcTestState, c5Data1, c5Data2, c5State1, c5State2, lcMaxValue,
      lcGroupNames, lcConvertDates, d3extentQ, d3minQ, d3maxQ]
  · simp [c5State1, c5State2, lcTestState]
  · simp [c5Data, c5Data1]
